import Mathlib

/-!
Shallow embedding of the `ai-product-recommender` frontend core: the
`ProductRecommender` component (query submission, recommendation fetch, and
state management) together with the `ProductCard` star-rendering and image
fallback logic.  Numbers that are JavaScript floats in the source (price,
rating) are modelled as rationals; the component's four `useState` hooks are
a record; the asynchronous fetch is a small-step transition system in which
dispatch and resolution are separate observable steps.
-/

/-- The whitespace characters removed by JavaScript `String.prototype.trim`
(ASCII whitespace, NBSP, BOM and the Unicode space separators). -/
def isJSWhitespace (c : Char) : Bool :=
  c = ' ' || c = '\t' || c = '\n' || c = '\r' || c = '\x0b' || c = '\x0c' ||
  c = ' ' || c = '﻿' || c = ' ' || c = ' ' ||
  c = ' ' || c = ' ' || c = ' ' || c = ' ' ||
  c = ' ' || c = ' ' || c = ' ' || c = ' ' ||
  c = ' ' || c = ' ' || c = ' ' || c = ' ' ||
  c = ' ' || c = ' ' || c = '　'

/-- Trimming on the character list: drop whitespace from the front, then from
the back (`List.rdropWhile` drops from the tail end). -/
def jsTrimList (l : List Char) : List Char :=
  List.rdropWhile isJSWhitespace (l.dropWhile isJSWhitespace)

/-- JavaScript `input.trim()`: remove leading and trailing whitespace. -/
def jsTrim (s : String) : String :=
  String.mk (jsTrimList s.data)

/-- A product record as deserialized from the response body
(`interface Product` in `ProductRecommender`): `image` is nullable. -/
structure Product where
  title : String
  price : ℚ
  rating : ℚ
  rating_count : ℕ
  description : String
  image : Option String
  link : String
deriving DecidableEq

/-- The four `useState` hooks of the `ProductRecommender` component. -/
structure RecommenderState where
  query : String
  input : String
  products : List Product
  loading : Bool
deriving DecidableEq

/-- The `onChange` handler of the text field: `setInput(e.target.value)`. -/
def typeInput (s : RecommenderState) (t : String) : RecommenderState :=
  { s with input := t }

/-- `handleSend`: `if (input.trim()) setQuery(input.trim())` — promote the
trimmed input into the current query only when it is non-empty. -/
def handleSend (s : RecommenderState) : RecommenderState :=
  if jsTrim s.input = "" then s else { s with query := jsTrim s.input }

/-- The outcome of one recommendation request: a resolved response whose body
may or may not contain the `cards` field, or any failure (network error,
non-2xx status, malformed body). -/
inductive FetchResult where
  | success (cards : Option (List Product))
  | failure
deriving DecidableEq

/-- The product list the resolution handler installs:
`res.data.cards || []` on success, `[]` in the `catch` branch. -/
def resolveProducts : FetchResult → List Product
  | FetchResult.success cards => cards.getD []
  | FetchResult.failure => []

/-- Resolution of a request: `setProducts(...)` together with the `finally`
clause `setLoading(false)`, batched into one observable update. -/
def fetchResolve (s : RecommenderState) (r : FetchResult) : RecommenderState :=
  { s with products := resolveProducts r, loading := false }

/-- Whether submission changes the `query` state and hence re-runs the effect
keyed on `[query]`: the trimmed input must be non-empty (`handleSend` guard)
and differ from the current query (React skips identical state updates). -/
def sendFires (s : RecommenderState) : Bool :=
  decide (jsTrim s.input ≠ "") && decide (jsTrim s.input ≠ s.query)

/-- A configuration: the visible component state plus the number of
dispatched, not yet resolved recommendation requests. -/
structure AppState where
  ui : RecommenderState
  inflight : ℕ
deriving DecidableEq

/-- The observable outcome of a submission (button click or Enter key):
`handleSend` runs; when it changed the query the effect fires and
`fetchData` synchronously runs `setLoading(true)` and dispatches the
request; otherwise nothing else happens. -/
def sendStep (c : AppState) : AppState :=
  if sendFires c.ui then
    ⟨{ handleSend c.ui with loading := true }, c.inflight + 1⟩
  else
    ⟨handleSend c.ui, c.inflight⟩

/-- One observable transition of the component: a keystroke, a submission, or
the resolution (success or failure) of one outstanding request. -/
inductive Step : AppState → AppState → Prop where
  | type (c : AppState) (t : String) : Step c ⟨typeInput c.ui t, c.inflight⟩
  | send (c : AppState) : Step c (sendStep c)
  | resolve (c : AppState) (r : FetchResult) (h : 0 < c.inflight) :
      Step c ⟨fetchResolve c.ui r, c.inflight - 1⟩

/-- The initial mount: empty query, empty input, no products, not loading. -/
def initialState : AppState :=
  ⟨⟨"", "", [], false⟩, 0⟩

/-- The states the component can reach from its initial mount. -/
def Reachable (c : AppState) : Prop :=
  Relation.ReflTransGen Step initialState c

/-- `renderStars` (ProductCard): for star `i` (1-based), the filled
percentage is `Math.min(Math.max(rating - (i - 1), 0), 1) * 100`; the list
entry at index `k` is star `i = k + 1`. -/
def renderStars (rating : ℚ) : List ℚ :=
  (List.range 5).map (fun k => min (max (rating - (k : ℕ)) 0) 1 * 100)

/-- The `imageUrl` prop passed to `ProductCard`:
`product.image ?? '/placeholder.png'`. -/
def cardImageUrl (p : Product) : String :=
  p.image.getD "/placeholder.png"

/-- The outbound request: method, full URL, and the single body field. -/
structure RecommendationRequest where
  method : String
  url : String
  bodyField : String
  bodyValue : String
deriving DecidableEq

/-- Request construction in the effect: `if (!query) return;` then
`axios.post(baseUrl + "/recommendation", { prompt: query })`. -/
def buildRequest (baseUrl : String) (query : String) : Option RecommendationRequest :=
  if query = "" then none
  else some ⟨"POST", baseUrl ++ "/recommendation", "prompt", query⟩

/-! ### Trim lemmas -/

theorem jsTrimList_eq_nil {l : List Char}
    (h : ∀ ch ∈ l, isJSWhitespace ch = true) : jsTrimList l = [] := by
  unfold jsTrimList
  rw [List.dropWhile_eq_nil_iff.mpr h, List.rdropWhile_nil]

theorem jsTrim_eq_empty {s : String}
    (h : ∀ ch ∈ s.data, isJSWhitespace ch = true) : jsTrim s = "" := by
  unfold jsTrim
  rw [jsTrimList_eq_nil h]

theorem rdropWhile_append_rtakeWhile (p : Char → Bool) (l : List Char) :
    List.rdropWhile p l ++ List.rtakeWhile p l = l := by
  unfold List.rdropWhile List.rtakeWhile
  rw [← List.reverse_append, List.takeWhile_append_dropWhile, List.reverse_reverse]

theorem dropWhile_jsTrimList (l : List Char) :
    (jsTrimList l).dropWhile isJSWhitespace = jsTrimList l := by
  have hmm : (l.dropWhile isJSWhitespace).dropWhile isJSWhitespace
      = l.dropWhile isJSWhitespace := List.dropWhile_idempotent isJSWhitespace l
  cases hr : jsTrimList l with
  | nil => simp
  | cons a t =>
    have hr' : List.rdropWhile isJSWhitespace (l.dropWhile isJSWhitespace) = a :: t := hr
    have hdecomp : l.dropWhile isJSWhitespace
        = a :: (t ++ List.rtakeWhile isJSWhitespace (l.dropWhile isJSWhitespace)) := by
      conv_lhs =>
        rw [← rdropWhile_append_rtakeWhile isJSWhitespace (l.dropWhile isJSWhitespace)]
      rw [hr']
      rfl
    have hpa : isJSWhitespace a = false := by
      by_contra hcon
      have hpa' : isJSWhitespace a = true := by
        cases hfa : isJSWhitespace a with
        | false => exact absurd hfa hcon
        | true => rfl
      rw [hdecomp, List.dropWhile_cons, if_pos hpa'] at hmm
      have hlen : (List.dropWhile isJSWhitespace
          (t ++ List.rtakeWhile isJSWhitespace (l.dropWhile isJSWhitespace))).length
          ≤ (t ++ List.rtakeWhile isJSWhitespace (l.dropWhile isJSWhitespace)).length :=
        (List.dropWhile_suffix isJSWhitespace).length_le
      rw [hmm] at hlen
      simp at hlen
    rw [List.dropWhile_cons, if_neg (by simp [hpa])]

theorem jsTrimList_idem (l : List Char) :
    jsTrimList (jsTrimList l) = jsTrimList l :=
  calc jsTrimList (jsTrimList l)
      = List.rdropWhile isJSWhitespace ((jsTrimList l).dropWhile isJSWhitespace) := rfl
    _ = List.rdropWhile isJSWhitespace (jsTrimList l) := by rw [dropWhile_jsTrimList]
    _ = jsTrimList l :=
        List.rdropWhile_idempotent isJSWhitespace (l.dropWhile isJSWhitespace)

theorem jsTrim_idem (s : String) : jsTrim (jsTrim s) = jsTrim s := by
  unfold jsTrim
  exact congrArg String.mk (jsTrimList_idem s.data)

/-! ### Basic facts about the transition functions -/

theorem handleSend_loading (s : RecommenderState) :
    (handleSend s).loading = s.loading := by
  unfold handleSend
  split <;> rfl

theorem handleSend_products (s : RecommenderState) :
    (handleSend s).products = s.products := by
  unfold handleSend
  split <;> rfl

theorem handleSend_query_cases (s : RecommenderState) :
    (handleSend s).query = s.query ∨ (handleSend s).query = jsTrim s.input := by
  unfold handleSend
  split
  · exact Or.inl rfl
  · exact Or.inr rfl

/-- The loading flag can only be on while at least one request is
outstanding: `setLoading(true)` happens only at dispatch, and every
resolution path runs `setLoading(false)`. -/
theorem loading_needs_inflight {c : AppState} (h : Reachable c) :
    c.ui.loading = true → 0 < c.inflight := by
  induction h with
  | refl =>
    intro hl
    exact absurd hl (by simp [initialState])
  | @tail b d hab hbc ih =>
    cases hbc with
    | type t =>
      intro hl
      exact ih hl
    | send =>
      unfold sendStep
      by_cases hf : sendFires b.ui = true
      · rw [if_pos hf]
        intro _
        exact Nat.succ_pos _
      · rw [if_neg hf]
        intro hl
        rw [handleSend_loading] at hl
        exact ih hl
    | resolve r hr =>
      intro hl
      exact absurd hl (by simp [fetchResolve])

/-- The promoted query is always a trimmed string: it starts empty and is
only ever set to `input.trim()`. -/
theorem query_trimmed {c : AppState} (h : Reachable c) :
    jsTrim c.ui.query = c.ui.query := by
  induction h with
  | refl => rfl
  | @tail b d hab hbc ih =>
    cases hbc with
    | type t => exact ih
    | send =>
      unfold sendStep
      by_cases hf : sendFires b.ui = true
      · rw [if_pos hf]
        show jsTrim (handleSend b.ui).query = (handleSend b.ui).query
        rcases handleSend_query_cases b.ui with hq | hq
        · rw [hq]; exact ih
        · rw [hq]; exact jsTrim_idem b.ui.input
      · rw [if_neg hf]
        show jsTrim (handleSend b.ui).query = (handleSend b.ui).query
        rcases handleSend_query_cases b.ui with hq | hq
        · rw [hq]; exact ih
        · rw [hq]; exact jsTrim_idem b.ui.input
    | resolve r hr => exact ih

/-! ### Claims -/

/-- A concrete product record used to instantiate reachability arguments. -/
def sampleProduct : Product :=
  ⟨"X", 1, 1, 1, "", none, "https://example.com/x"⟩

/-- C1 is refuted as stated: a configuration in which the loading flag is on
while a non-empty product list is rendered is reachable — submit a query,
let it resolve with one card, then submit a different query: during the
second request the prior cards are still displayed alongside the spinner. -/
theorem c1_exclusive_states_counterexample :
    ∃ c : AppState, Reachable c ∧ c.ui.loading = true ∧ c.ui.products ≠ [] := by
  refine ⟨⟨⟨"b", "b", [sampleProduct], true⟩, 1⟩, ?_, rfl, by simp⟩
  have s1 : Step initialState ⟨⟨"", "a", [], false⟩, 0⟩ := by
    have h := Step.type initialState "a"
    have e : (⟨typeInput initialState.ui "a", initialState.inflight⟩ : AppState)
        = ⟨⟨"", "a", [], false⟩, 0⟩ := by decide
    exact e ▸ h
  have s2 : Step ⟨⟨"", "a", [], false⟩, 0⟩ ⟨⟨"a", "a", [], true⟩, 1⟩ := by
    have h := Step.send ⟨⟨"", "a", [], false⟩, 0⟩
    have e : sendStep ⟨⟨"", "a", [], false⟩, 0⟩ = ⟨⟨"a", "a", [], true⟩, 1⟩ := by decide
    exact e ▸ h
  have s3 : Step ⟨⟨"a", "a", [], true⟩, 1⟩ ⟨⟨"a", "a", [sampleProduct], false⟩, 0⟩ := by
    have h := Step.resolve ⟨⟨"a", "a", [], true⟩, 1⟩
      (FetchResult.success (some [sampleProduct])) (by decide)
    have e : (⟨fetchResolve (⟨⟨"a", "a", [], true⟩, 1⟩ : AppState).ui
        (FetchResult.success (some [sampleProduct])), 1 - 1⟩ : AppState)
        = ⟨⟨"a", "a", [sampleProduct], false⟩, 0⟩ := by decide
    exact e ▸ h
  have s4 : Step ⟨⟨"a", "a", [sampleProduct], false⟩, 0⟩
      ⟨⟨"a", "b", [sampleProduct], false⟩, 0⟩ := by
    have h := Step.type ⟨⟨"a", "a", [sampleProduct], false⟩, 0⟩ "b"
    have e : (⟨typeInput (⟨⟨"a", "a", [sampleProduct], false⟩, 0⟩ : AppState).ui "b",
        (0 : ℕ)⟩ : AppState) = ⟨⟨"a", "b", [sampleProduct], false⟩, 0⟩ := by decide
    exact e ▸ h
  have s5 : Step ⟨⟨"a", "b", [sampleProduct], false⟩, 0⟩
      ⟨⟨"b", "b", [sampleProduct], true⟩, 1⟩ := by
    have h := Step.send ⟨⟨"a", "b", [sampleProduct], false⟩, 0⟩
    have e : sendStep ⟨⟨"a", "b", [sampleProduct], false⟩, 0⟩
        = ⟨⟨"b", "b", [sampleProduct], true⟩, 1⟩ := by decide
    exact e ▸ h
  exact Relation.ReflTransGen.tail (Relation.ReflTransGen.tail (Relation.ReflTransGen.tail
    (Relation.ReflTransGen.tail (Relation.ReflTransGen.single s1) s2) s3) s4) s5

/-- C1 (amended): in every reachable configuration with no request in flight,
at most one of {loading = true, rendered product list non-empty} holds; and
resolving a successful response sets loading to false and simultaneously
replaces the product list with exactly the parsed list (no merge with prior
results).  The exclusivity part of the original claim fails only while a
request dispatched over a populated view is in flight. -/
theorem c1_exclusive_states_amended (c : AppState) (h : Reachable c) :
    (c.inflight = 0 → ¬(c.ui.loading = true ∧ c.ui.products ≠ [])) ∧
    (∀ cards : Option (List Product),
      (fetchResolve c.ui (FetchResult.success cards)).loading = false ∧
      (fetchResolve c.ui (FetchResult.success cards)).products = cards.getD []) := by
  constructor
  · intro h0 hcon
    have := loading_needs_inflight h hcon.1
    omega
  · intro cards
    exact ⟨rfl, rfl⟩

/-- Witness for the amended C1 at the initial configuration. -/
theorem c1_exclusive_states_amended_witness :
    ¬(initialState.ui.loading = true ∧ initialState.ui.products ≠ []) :=
  (c1_exclusive_states_amended initialState Relation.ReflTransGen.refl).1 rfl

/-- C2: submitting while the text field holds a whitespace-only (or empty)
string performs no request and leaves the whole configuration unchanged —
in particular the query and the loading flag keep their values. -/
theorem c2_whitespace_submit_noop (c : AppState) (S : String)
    (h : ∀ ch ∈ S.data, isJSWhitespace ch = true) :
    sendStep ⟨typeInput c.ui S, c.inflight⟩ = ⟨typeInput c.ui S, c.inflight⟩ := by
  have hts : jsTrim (typeInput c.ui S).input = "" := jsTrim_eq_empty h
  unfold sendStep
  have hf : sendFires (typeInput c.ui S) = false := by
    unfold sendFires
    rw [hts]
    simp
  rw [if_neg (by simp [hf])]
  unfold handleSend
  rw [if_pos hts]

/-- Witness for C2: submitting the whitespace string changes nothing. -/
theorem c2_whitespace_submit_noop_witness :
    sendStep ⟨typeInput initialState.ui " \t ", initialState.inflight⟩
      = ⟨typeInput initialState.ui " \t ", initialState.inflight⟩ :=
  c2_whitespace_submit_noop initialState " \t " (by decide)

/-- C3: whenever a submission dispatches a request, the loading flag is set
to true in the same observable step, and resolving any request — success or
failure alike — sets the loading flag to false. -/
theorem c3_loading_scoped (c : AppState) (h : sendFires c.ui = true) :
    (sendStep c).ui.loading = true ∧ (sendStep c).inflight = c.inflight + 1 ∧
    ∀ r : FetchResult, (fetchResolve (sendStep c).ui r).loading = false := by
  unfold sendStep
  rw [if_pos h]
  exact ⟨rfl, rfl, fun r => rfl⟩

/-- Witness for C3 at a concrete dispatching configuration. -/
theorem c3_loading_scoped_witness :
    (sendStep ⟨⟨"", "a", [], false⟩, 0⟩).ui.loading = true :=
  (c3_loading_scoped ⟨⟨"", "a", [], false⟩, 0⟩ (by decide)).1

/-- C4: from any populated state (N > 0 results), a failed request leaves the
rendered result set equal to the empty list — no prior result is retained. -/
theorem c4_failure_clears (s : RecommenderState) (_h : 0 < s.products.length) :
    (fetchResolve s FetchResult.failure).products = [] := rfl

/-- Witness for C4 at a state holding one product. -/
theorem c4_failure_clears_witness :
    (fetchResolve ⟨"q", "q", [sampleProduct], false⟩ FetchResult.failure).products = [] :=
  c4_failure_clears ⟨"q", "q", [sampleProduct], false⟩ (by decide)

/-- C5: a successful response whose body lacks the `cards` field yields the
empty rendered set with the loading flag cleared (the handler is total: no
error state, no exception), and a present `cards` list replaces the rendered
set entirely. -/
theorem c5_missing_cards (s : RecommenderState) (cards : List Product) :
    (fetchResolve s (FetchResult.success none)).products = [] ∧
    (fetchResolve s (FetchResult.success none)).loading = false ∧
    (fetchResolve s (FetchResult.success (some cards))).products = cards ∧
    (fetchResolve s (FetchResult.success (some cards))).loading = false :=
  ⟨rfl, rfl, rfl, rfl⟩

/-- C6: the star list entry for star `i = k + 1` is `rating - (i - 1)`
clamped to `[0, 1]`, scaled to a percentage; rating 3.5 gives three full
stars, one half star and one empty star; rating 5 gives five full stars;
rating 0 gives five empty stars. -/
theorem c6_rating_fill (r : ℚ) (k : ℕ) (hk : k < 5) :
    (renderStars r)[k]? = some (min (max (r - (k : ℚ)) 0) 1 * 100) ∧
    renderStars (7/2) = [100, 100, 100, 50, 0] ∧
    renderStars 5 = [100, 100, 100, 100, 100] ∧
    renderStars 0 = [0, 0, 0, 0, 0] := by
  refine ⟨?_, ?_, ?_, ?_⟩
  · unfold renderStars
    rw [List.getElem?_map, List.getElem?_range hk]
    rfl
  · norm_num [renderStars, List.range_succ, min_def, max_def]
  · norm_num [renderStars, List.range_succ, min_def, max_def]
  · norm_num [renderStars, List.range_succ, min_def, max_def]

/-- Witness for C6: the fourth star at rating 3.5. -/
theorem c6_rating_fill_witness :
    (renderStars (7/2))[3]? = some (min (max ((7 : ℚ)/2 - ((3 : ℕ) : ℚ)) 0) 1 * 100) :=
  (c6_rating_fill (7/2) 3 (by decide)).1

/-- C7: in every reachable configuration the request logic produces a request
exactly when the current query is non-empty, and that request is a single
POST to the configured base URL plus `/recommendation` whose body is one
field (`prompt`) carrying the current query, which is itself a trimmed
string. -/
theorem c7_request_shape (baseUrl : String) (c : AppState) (h : Reachable c) :
    (buildRequest baseUrl c.ui.query = none ↔ c.ui.query = "") ∧
    ∀ req : RecommendationRequest, buildRequest baseUrl c.ui.query = some req →
      req.method = "POST" ∧ req.url = baseUrl ++ "/recommendation" ∧
      req.bodyField = "prompt" ∧ req.bodyValue = c.ui.query ∧
      jsTrim req.bodyValue = req.bodyValue := by
  constructor
  · unfold buildRequest
    by_cases hq : c.ui.query = ""
    · rw [if_pos hq]
      simp [hq]
    · rw [if_neg hq]
      simp [hq]
  · intro req hreq
    unfold buildRequest at hreq
    by_cases hq : c.ui.query = ""
    · rw [if_pos hq] at hreq
      exact absurd hreq (by simp)
    · rw [if_neg hq] at hreq
      have hr := Option.some.inj hreq
      subst hr
      exact ⟨rfl, rfl, rfl, rfl, query_trimmed h⟩

/-- Witness for C7 at the initial configuration (empty query, no request). -/
theorem c7_request_shape_witness :
    buildRequest "http://api" initialState.ui.query = none :=
  (c7_request_shape "http://api" initialState Relation.ReflTransGen.refl).1.mpr rfl

/-- C8: a product with a null `image` is rendered with the placeholder asset
reference, and a product with a non-null `image` is rendered with exactly
that URI. -/
theorem c8_image_fallback (p : Product) :
    (p.image = none → cardImageUrl p = "/placeholder.png") ∧
    ∀ u : String, p.image = some u → cardImageUrl p = u := by
  constructor
  · intro h
    unfold cardImageUrl
    rw [h]
    rfl
  · intro u h
    unfold cardImageUrl
    rw [h]
    rfl

/-- Witness for C8: the sample product has a null image. -/
theorem c8_image_fallback_witness :
    cardImageUrl sampleProduct = "/placeholder.png" :=
  (c8_image_fallback sampleProduct).1 rfl

/-- C9: for every rating, in range or not, the star renderer produces exactly
5 stars and every fill percentage lies in [0, 100]. -/
theorem c9_star_bounds (r : ℚ) :
    (renderStars r).length = 5 ∧ ∀ x ∈ renderStars r, 0 ≤ x ∧ x ≤ 100 := by
  constructor
  · unfold renderStars
    rw [List.length_map, List.length_range]
  · intro x hx
    simp only [renderStars, List.mem_map, List.mem_range] at hx
    obtain ⟨k, hk, hfk⟩ := hx
    subst hfk
    constructor
    · have h1 : (0 : ℚ) ≤ min (max (r - k) 0) 1 :=
        le_min (le_max_right _ _) (by norm_num)
      exact mul_nonneg h1 (by norm_num)
    · have h2 : min (max (r - k) 0) 1 ≤ 1 := min_le_right _ _
      calc min (max (r - (k : ℚ)) 0) 1 * 100 ≤ 1 * 100 :=
            mul_le_mul_of_nonneg_right h2 (by norm_num)
        _ = 100 := by norm_num

/-- Witness for C9 at the out-of-range rating 42. -/
theorem c9_star_bounds_witness :
    (renderStars 42).length = 5 ∧ ((0 : ℚ) ≤ 100 ∧ (100 : ℚ) ≤ 100) :=
  ⟨(c9_star_bounds 42).1,
    (c9_star_bounds 42).2 100
      (by norm_num [renderStars, List.range_succ, min_def, max_def])⟩

/-- C10: a submission whose trimmed text equals the already-promoted query is
a no-op — the configuration is unchanged, so no request is dispatched — and
a submission can change the number of in-flight requests only when the
trimmed text differs from the current query. -/
theorem c10_idempotent_resubmit (c : AppState) :
    (jsTrim c.ui.input = c.ui.query → sendStep c = c) ∧
    ((sendStep c).inflight ≠ c.inflight → jsTrim c.ui.input ≠ c.ui.query) := by
  obtain ⟨⟨q, i, pr, ld⟩, n⟩ := c
  have hmain : jsTrim i = q → sendStep ⟨⟨q, i, pr, ld⟩, n⟩ = ⟨⟨q, i, pr, ld⟩, n⟩ := by
    intro heq
    have hf : sendFires ⟨q, i, pr, ld⟩ = false := by
      show (decide (jsTrim i ≠ "") && decide (jsTrim i ≠ q)) = false
      rw [heq]
      simp
    unfold sendStep
    rw [if_neg (by simp [hf])]
    have hs : handleSend ⟨q, i, pr, ld⟩ = ⟨q, i, pr, ld⟩ := by
      show (if jsTrim i = "" then (⟨q, i, pr, ld⟩ : RecommenderState)
        else ⟨jsTrim i, i, pr, ld⟩) = ⟨q, i, pr, ld⟩
      by_cases h0 : jsTrim i = ""
      · rw [if_pos h0]
      · rw [if_neg h0, heq]
    rw [hs]
  exact ⟨hmain, fun hne heq => absurd (by rw [hmain heq]) hne⟩

/-- Witness for C10: resubmitting the promoted query "a" changes nothing. -/
theorem c10_idempotent_resubmit_witness :
    sendStep ⟨⟨"a", "a", [], false⟩, 0⟩ = ⟨⟨"a", "a", [], false⟩, 0⟩ :=
  (c10_idempotent_resubmit ⟨⟨"a", "a", [], false⟩, 0⟩).1 (by decide)
